import Mathlib

/-!
Verification of the ogre3d-py game client core (gameserver repository):
the message codec in `clients/ogre3d-py/network/protocol.py` and the
client-side state store / reconciler in `clients/ogre3d-py/game/__init__.py`.

Modelling conventions:
* Python `bytes` are `List Nat` (each entry a byte value).
* Python `str` is Lean `String` / `List Char`.
* Python `float` arithmetic is modelled exactly over `ℚ` (the spec states the
  interpolation and eviction laws in real arithmetic); a float that only
  passes through JSON is carried as its literal token (`JValue.flt`).
* Python `dict` is an association list in insertion order; `dictGet`,
  `dictSet`, `dictModify`, `dictUpdate` mirror `d[k]`, `d[k] = v`,
  in-place mutation of a looked-up value, and `d.update(u)`.
* A Python function that can raise is modelled with an explicit result
  constructor for the uncaught exception.
-/

/-! ## JSON values (the payloads handled by the `json` module) -/

/-- A Python value serializable by `json`: `None`, `bool`, `int`, `float`,
`str`, `list`, `dict`.  A `float` is carried by its literal token, since IEEE
formatting is outside this embedding; no claim inspects a float payload. -/
inductive JValue where
  | null
  | bool (b : Bool)
  | int (n : Int)
  | flt (lit : String)
  | str (s : String)
  | arr (xs : List JValue)
  | obj (kvs : List (String × JValue))

/-! ### Association-list operations mirroring Python `dict` -/

/-- Python `d.get(k)` / `k in d`: the value at the first matching key. -/
def dictGet {α β : Type} [DecidableEq α] (k : α) : List (α × β) → Option β
  | [] => none
  | kv :: rest => if kv.1 = k then some kv.2 else dictGet k rest

/-- Python `d[k] = v`: replace in place if the key exists, else append. -/
def dictSet {α β : Type} [DecidableEq α] (k : α) (v : β) : List (α × β) → List (α × β)
  | [] => [(k, v)]
  | kv :: rest => if kv.1 = k then (k, v) :: rest else kv :: dictSet k v rest

/-- Mutating the object stored under a key (`e = d[k]; e.f = ...`). -/
def dictModify {α β : Type} [DecidableEq α] (k : α) (f : β → β) (d : List (α × β)) :
    List (α × β) :=
  d.map (fun kv => if kv.1 = k then (kv.1, f kv.2) else kv)

/-- Python `d.update(u)`: existing keys overwritten in place, new keys appended. -/
def dictUpdate {α β : Type} [DecidableEq α] (d u : List (α × β)) : List (α × β) :=
  u.foldl (fun acc kv => dictSet kv.1 kv.2 acc) d

/-! ### `json.dumps(..., separators=(',', ':'))` with `ensure_ascii=True` -/

/-- Lowercase hexadecimal digit, as emitted by the `json` escaper. -/
def hexChar (k : Nat) : Char :=
  if k < 10 then Char.ofNat (48 + k) else Char.ofNat (87 + k)

/-- A `\uXXXX` escape sequence for a 16-bit value. -/
def uEscape (v : Nat) : List Char :=
  [Char.ofNat 92, 'u', hexChar (v / 4096 % 16), hexChar (v / 256 % 16),
   hexChar (v / 16 % 16), hexChar (v % 16)]

/-- One character of a JSON string, escaped exactly as Python's
`json.encoder.py_encode_basestring_ascii` does: the seven named escapes,
printable ASCII verbatim, `\uXXXX` otherwise (surrogate pairs above BMP). -/
def escapeChar (c : Char) : List Char :=
  let n := c.toNat
  if n = 92 then [Char.ofNat 92, Char.ofNat 92]
  else if n = 34 then [Char.ofNat 92, Char.ofNat 34]
  else if n = 8 then [Char.ofNat 92, 'b']
  else if n = 12 then [Char.ofNat 92, 'f']
  else if n = 10 then [Char.ofNat 92, 'n']
  else if n = 13 then [Char.ofNat 92, 'r']
  else if n = 9 then [Char.ofNat 92, 't']
  else if 32 ≤ n ∧ n ≤ 126 then [c]
  else if n < 65536 then uEscape n
  else uEscape (55296 + (n - 65536) / 1024) ++ uEscape (56320 + (n - 65536) % 1024)

/-- Decimal digits of a natural number, most significant first, onto `acc`. -/
def natCharsAux (n : Nat) (acc : List Char) : List Char :=
  let d := Char.ofNat (48 + n % 10)
  if h : n < 10 then d :: acc
  else natCharsAux (n / 10) (d :: acc)
termination_by n
decreasing_by exact Nat.div_lt_self (by omega) (by omega)

/-- Python `str(i)` for an `int`: optional minus sign, then decimal digits. -/
def intChars (i : Int) : List Char :=
  (if i < 0 then [Char.ofNat 45] else []) ++ natCharsAux i.natAbs []

/-- A JSON string literal: quote, escaped characters, quote. -/
def dumpJString (s : String) : List Char :=
  Char.ofNat 34 :: (s.toList.flatMap escapeChar ++ [Char.ofNat 34])

mutual
/-- Compact serialization of a value, as `json.dumps(v, separators=(',',':'))`. -/
def dumpJson : JValue → List Char
  | .null => "null".toList
  | .bool true => "true".toList
  | .bool false => "false".toList
  | .int n => intChars n
  | .flt lit => lit.toList
  | .str s => dumpJString s
  | .arr xs => Char.ofNat 91 :: (dumpJsonItems xs ++ [Char.ofNat 93])
  | .obj kvs => Char.ofNat 123 :: (dumpJsonFields kvs ++ [Char.ofNat 125])

/-- Comma-separated array items. -/
def dumpJsonItems : List JValue → List Char
  | [] => []
  | [x] => dumpJson x
  | x :: xs => dumpJson x ++ ',' :: dumpJsonItems xs

/-- Comma-separated `"key":value` object members. -/
def dumpJsonFields : List (String × JValue) → List Char
  | [] => []
  | [(k, v)] => dumpJString k ++ ':' :: dumpJson v
  | (k, v) :: kvs => dumpJString k ++ ':' :: dumpJson v ++ ',' :: dumpJsonFields kvs
end

/-! ### UTF-8 (`str.encode('utf-8')` / `bytes.decode('utf-8')`) -/

/-- UTF-8 bytes of one character. -/
def charUtf8 (c : Char) : List Nat :=
  let n := c.toNat
  if n < 128 then [n]
  else if n < 2048 then [192 + n / 64, 128 + n % 64]
  else if n < 65536 then [224 + n / 4096, 128 + n / 64 % 64, 128 + n % 64]
  else [240 + n / 262144, 128 + n / 4096 % 64, 128 + n / 64 % 64, 128 + n % 64]

/-- Python `s.encode('utf-8')`. -/
def utf8Encode (cs : List Char) : List Nat := cs.flatMap charUtf8

/-- Python `bytes.decode('utf-8')` (strict): `none` models `UnicodeDecodeError`. -/
def utf8Decode : List Nat → Option (List Char)
  | [] => some []
  | b :: rest =>
    if b < 128 then (utf8Decode rest).map (Char.ofNat b :: ·)
    else if 194 ≤ b ∧ b ≤ 223 then
      match rest with
      | b1 :: rest2 =>
        if 128 ≤ b1 ∧ b1 ≤ 191 then
          (utf8Decode rest2).map (Char.ofNat ((b - 192) * 64 + (b1 - 128)) :: ·)
        else none
      | [] => none
    else if 224 ≤ b ∧ b ≤ 239 then
      match rest with
      | b1 :: b2 :: rest3 =>
        let lo := if b = 224 then 160 else 128
        let hi := if b = 237 then 159 else 191
        if lo ≤ b1 ∧ b1 ≤ hi ∧ 128 ≤ b2 ∧ b2 ≤ 191 then
          (utf8Decode rest3).map
            (Char.ofNat ((b - 224) * 4096 + (b1 - 128) * 64 + (b2 - 128)) :: ·)
        else none
      | _ => none
    else if 240 ≤ b ∧ b ≤ 244 then
      match rest with
      | b1 :: b2 :: b3 :: rest4 =>
        let lo := if b = 240 then 144 else 128
        let hi := if b = 244 then 143 else 191
        if lo ≤ b1 ∧ b1 ≤ hi ∧ 128 ≤ b2 ∧ b2 ≤ 191 ∧ 128 ≤ b3 ∧ b3 ≤ 191 then
          (utf8Decode rest4).map
            (Char.ofNat ((b - 240) * 262144 + (b1 - 128) * 4096 + (b2 - 128) * 64 + (b3 - 128)) :: ·)
        else none
      | _ => none
    else none

/-! ### `json.loads` (strict decoder; failure models `json.JSONDecodeError`) -/

/-- Whitespace accepted by the `json` scanner: space, tab, newline, return. -/
def jIsWs (c : Char) : Bool := c == ' ' || c == '\t' || c == '\n' || c == '\r'

/-- Skip scanner whitespace. -/
def jSkipWs : List Char → List Char
  | c :: cs => if jIsWs c then jSkipWs cs else c :: cs
  | [] => []

/-- ASCII decimal digit test. -/
def jIsDigit (c : Char) : Bool := 48 ≤ c.toNat && c.toNat ≤ 57

/-- Longest leading digit run. -/
def jTakeDigits : List Char → List Char × List Char
  | c :: cs =>
    if jIsDigit c then
      let p := jTakeDigits cs
      (c :: p.1, p.2)
    else ([], c :: cs)
  | [] => ([], [])

/-- Value of a digit run. -/
def jDigitsNat (ds : List Char) : Nat :=
  ds.foldl (fun acc c => acc * 10 + (c.toNat - 48)) 0

/-- Hexadecimal digit value (both cases), for `\uXXXX` escapes. -/
def jHexVal (c : Char) : Option Nat :=
  let n := c.toNat
  if 48 ≤ n ∧ n ≤ 57 then some (n - 48)
  else if 97 ≤ n ∧ n ≤ 102 then some (n - 87)
  else if 65 ≤ n ∧ n ≤ 70 then some (n - 55)
  else none

/-- Value of four hex digits. -/
def jHex4 (a b c d : Char) : Option Nat := do
  let va ← jHexVal a
  let vb ← jHexVal b
  let vc ← jHexVal c
  let vd ← jHexVal d
  return ((va * 16 + vb) * 16 + vc) * 16 + vd

/-- Named escape characters (`\" \\ \/ \b \f \n \r \t`). -/
def jNamedEscape (e : Char) : Option Char :=
  if e.toNat = 34 then some (Char.ofNat 34)
  else if e.toNat = 92 then some (Char.ofNat 92)
  else if e.toNat = 47 then some (Char.ofNat 47)
  else if e = 'b' then some (Char.ofNat 8)
  else if e = 'f' then some (Char.ofNat 12)
  else if e = 'n' then some (Char.ofNat 10)
  else if e = 'r' then some (Char.ofNat 13)
  else if e = 't' then some (Char.ofNat 9)
  else none

/-- Body of a string literal after the opening quote.  Strict mode: raw control
characters are rejected; `\uXXXX` escapes are decoded, an adjacent
high/low surrogate escape pair is combined into one character.  The fuel is
only a termination device: every step consumes at least one input character,
so `cs.length` fuel is always enough. -/
def jStringBody (fuel : Nat) (acc : List Char) (cs : List Char) :
    Option (String × List Char) :=
  match fuel with
  | 0 => none
  | fuel + 1 =>
    match cs with
    | [] => none
    | c :: rest =>
      if c.toNat = 34 then some (String.mk acc.reverse, rest)
      else if c.toNat = 92 then
        match rest with
        | [] => none
        | e :: rest2 =>
          if e = 'u' then
            match rest2 with
            | a :: b :: c2 :: d :: rest3 =>
              match jHex4 a b c2 d with
              | none => none
              | some v =>
                if 55296 ≤ v ∧ v ≤ 56319 then
                  match rest3 with
                  | s2 :: u2 :: a2 :: b2 :: c3 :: d2 :: rest4 =>
                    if s2.toNat = 92 ∧ u2 = 'u' then
                      match jHex4 a2 b2 c3 d2 with
                      | some w =>
                        if 56320 ≤ w ∧ w ≤ 57343 then
                          jStringBody fuel
                            (Char.ofNat (65536 + (v - 55296) * 1024 + (w - 56320)) :: acc) rest4
                        else jStringBody fuel (Char.ofNat v :: acc) rest3
                      | none => jStringBody fuel (Char.ofNat v :: acc) rest3
                    else jStringBody fuel (Char.ofNat v :: acc) rest3
                  | _ => jStringBody fuel (Char.ofNat v :: acc) rest3
                else jStringBody fuel (Char.ofNat v :: acc) rest3
            | _ => none
          else
            match jNamedEscape e with
            | some ch => jStringBody fuel (ch :: acc) rest2
            | none => none
      else if c.toNat < 32 then none
      else jStringBody fuel (c :: acc) rest

/-- A number token: integer part per the JSON grammar (no leading zeros),
optional fraction and exponent.  A token with fraction or exponent is a Python
float and is carried as its literal; otherwise it is an `int`. -/
def jNumber (cs : List Char) : Option (JValue × List Char) :=
  let signed : Bool × List Char :=
    match cs with
    | c :: r => if c.toNat = 45 then (true, r) else (false, cs)
    | [] => (false, cs)
  match signed.2 with
  | [] => none
  | c :: r =>
    if ¬ jIsDigit c then none
    else
      let ipart : List Char × List Char :=
        if c.toNat = 48 then (['0'], r)
        else
          let p := jTakeDigits r
          (c :: p.1, p.2)
      let fpart : Option (List Char × List Char) :=
        match ipart.2 with
        | d :: r2 =>
          if d.toNat = 46 then
            let p := jTakeDigits r2
            if p.1.isEmpty then none else some (d :: p.1, p.2)
          else some ([], ipart.2)
        | [] => some ([], ipart.2)
      match fpart with
      | none => none
      | some fp =>
        let epart : Option (List Char × List Char) :=
          match fp.2 with
          | e :: r3 =>
            if e = 'e' ∨ e = 'E' then
              let se : List Char × List Char :=
                match r3 with
                | s :: r4 => if s.toNat = 43 ∨ s.toNat = 45 then ([s], r4) else ([], r3)
                | [] => ([], r3)
              let p := jTakeDigits se.2
              if p.1.isEmpty then none else some (e :: se.1 ++ p.1, p.2)
            else some ([], fp.2)
          | [] => some ([], fp.2)
        match epart with
        | none => none
        | some ep =>
          if fp.1.isEmpty ∧ ep.1.isEmpty then
            let mag : Int := Int.ofNat (jDigitsNat ipart.1)
            some (.int (if signed.1 then -mag else mag), ep.2)
          else
            let tok := (if signed.1 then [Char.ofNat 45] else []) ++ ipart.1 ++ fp.1 ++ ep.1
            some (.flt (String.mk tok), ep.2)

mutual
/-- One JSON value (fuel-bounded recursion; the scanner of `json.loads`,
including the `NaN` / `Infinity` constants Python accepts by default). -/
def jParseVal (fuel : Nat) (cs : List Char) : Option (JValue × List Char) :=
  match fuel with
  | 0 => none
  | fuel + 1 =>
    match jSkipWs cs with
    | 'n' :: 'u' :: 'l' :: 'l' :: r => some (.null, r)
    | 't' :: 'r' :: 'u' :: 'e' :: r => some (.bool true, r)
    | 'f' :: 'a' :: 'l' :: 's' :: 'e' :: r => some (.bool false, r)
    | 'N' :: 'a' :: 'N' :: r => some (.flt "NaN", r)
    | 'I' :: 'n' :: 'f' :: 'i' :: 'n' :: 'i' :: 't' :: 'y' :: r => some (.flt "Infinity", r)
    | '-' :: 'I' :: 'n' :: 'f' :: 'i' :: 'n' :: 'i' :: 't' :: 'y' :: r =>
      some (.flt "-Infinity", r)
    | c :: r =>
      if c.toNat = 34 then
        match jStringBody (r.length + 1) [] r with
        | some p => some (.str p.1, p.2)
        | none => none
      else if c.toNat = 91 then
        match jSkipWs r with
        | d :: r2 =>
          if d.toNat = 93 then some (.arr [], r2)
          else
            match jParseItems fuel (d :: r2) with
            | some p => some (.arr p.1, p.2)
            | none => none
        | [] => none
      else if c.toNat = 123 then
        match jSkipWs r with
        | d :: r2 =>
          if d.toNat = 125 then some (.obj [], r2)
          else
            match jParseFields fuel (d :: r2) with
            | some p =>
              some (.obj (p.1.foldl (fun acc kv => dictSet kv.1 kv.2 acc) []), p.2)
            | none => none
        | [] => none
      else if jIsDigit c ∨ c.toNat = 45 then jNumber (c :: r)
      else none
    | [] => none

/-- One-or-more comma-separated array items. -/
def jParseItems (fuel : Nat) (cs : List Char) : Option (List JValue × List Char) :=
  match fuel with
  | 0 => none
  | fuel + 1 =>
    match jParseVal fuel cs with
    | none => none
    | some (v, r) =>
      match jSkipWs r with
      | c :: r2 =>
        if c.toNat = 44 then
          match jParseItems fuel r2 with
          | some p => some (v :: p.1, p.2)
          | none => none
        else if c.toNat = 93 then some ([v], r2)
        else none
      | [] => none

/-- One-or-more comma-separated `"key": value` members. -/
def jParseFields (fuel : Nat) (cs : List Char) :
    Option (List (String × JValue) × List Char) :=
  match fuel with
  | 0 => none
  | fuel + 1 =>
    match jSkipWs cs with
    | c :: r =>
      if c.toNat = 34 then
        match jStringBody (r.length + 1) [] r with
        | none => none
        | some (key, r1) =>
          match jSkipWs r1 with
          | d :: r2 =>
            if d.toNat = 58 then
              match jParseVal fuel r2 with
              | none => none
              | some (v, r3) =>
                match jSkipWs r3 with
                | e :: r4 =>
                  if e.toNat = 44 then
                    match jParseFields fuel r4 with
                    | some p => some ((key, v) :: p.1, p.2)
                    | none => none
                  else if e.toNat = 125 then some ([(key, v)], r4)
                  else none
                | [] => none
            else none
          | [] => none
      else none
    | [] => none
end

/-- Python `json.loads(s)`: one value, then only trailing whitespace. -/
def pyJsonLoads (cs : List Char) : Option JValue :=
  match jParseVal (cs.length + 1) cs with
  | none => none
  | some (v, r) => if (jSkipWs r).isEmpty then some v else none

/-! ## The wire protocol (`clients/ogre3d-py/network/protocol.py`) -/

/-- The closed `MessageType` enumeration (`IntEnum`). -/
inductive MessageType where
  | CLIENT_HELLO | LOGIN_REQUEST | LOGOUT_NOTIFY | MOVEMENT_UPDATE
  | CHAT_MESSAGE | WORLD_REQUEST | ENTITY_INTERACT | COMBAT_ACTION
  | INVENTORY_ACTION | QUEST_ACTION | TRADE_REQUEST | PING
  | SERVER_HELLO | LOGIN_RESPONSE | WORLD_DATA | ENTITY_UPDATE
  | CHAT_BROADCAST | COMBAT_RESULT | INVENTORY_UPDATE | QUEST_UPDATE
  | TRADE_UPDATE | ERROR_MESSAGE | PONG
deriving DecidableEq

/-- The numeric value of each `MessageType` member. -/
def MessageType.toVal : MessageType → Nat
  | .CLIENT_HELLO => 0x01
  | .LOGIN_REQUEST => 0x02
  | .LOGOUT_NOTIFY => 0x03
  | .MOVEMENT_UPDATE => 0x04
  | .CHAT_MESSAGE => 0x05
  | .WORLD_REQUEST => 0x06
  | .ENTITY_INTERACT => 0x07
  | .COMBAT_ACTION => 0x08
  | .INVENTORY_ACTION => 0x09
  | .QUEST_ACTION => 0x0A
  | .TRADE_REQUEST => 0x0B
  | .PING => 0x0C
  | .SERVER_HELLO => 0x81
  | .LOGIN_RESPONSE => 0x82
  | .WORLD_DATA => 0x83
  | .ENTITY_UPDATE => 0x84
  | .CHAT_BROADCAST => 0x85
  | .COMBAT_RESULT => 0x86
  | .INVENTORY_UPDATE => 0x87
  | .QUEST_UPDATE => 0x88
  | .TRADE_UPDATE => 0x89
  | .ERROR_MESSAGE => 0x8A
  | .PONG => 0x8B

/-- The enum constructor `MessageType(value)`: `none` models the `ValueError`
raised for a value outside the enumeration. -/
def MessageType.fromVal (v : Nat) : Option MessageType :=
  if v = 0x01 then some .CLIENT_HELLO
  else if v = 0x02 then some .LOGIN_REQUEST
  else if v = 0x03 then some .LOGOUT_NOTIFY
  else if v = 0x04 then some .MOVEMENT_UPDATE
  else if v = 0x05 then some .CHAT_MESSAGE
  else if v = 0x06 then some .WORLD_REQUEST
  else if v = 0x07 then some .ENTITY_INTERACT
  else if v = 0x08 then some .COMBAT_ACTION
  else if v = 0x09 then some .INVENTORY_ACTION
  else if v = 0x0A then some .QUEST_ACTION
  else if v = 0x0B then some .TRADE_REQUEST
  else if v = 0x0C then some .PING
  else if v = 0x81 then some .SERVER_HELLO
  else if v = 0x82 then some .LOGIN_RESPONSE
  else if v = 0x83 then some .WORLD_DATA
  else if v = 0x84 then some .ENTITY_UPDATE
  else if v = 0x85 then some .CHAT_BROADCAST
  else if v = 0x86 then some .COMBAT_RESULT
  else if v = 0x87 then some .INVENTORY_UPDATE
  else if v = 0x88 then some .QUEST_UPDATE
  else if v = 0x89 then some .TRADE_UPDATE
  else if v = 0x8A then some .ERROR_MESSAGE
  else if v = 0x8B then some .PONG
  else none

/-- Python exceptions that the codec can raise. -/
inductive PyExn where
  | structError
  | valueError
  | unicodeDecodeError
  | typeError
deriving DecidableEq

/-- The `MessageHeader` dataclass fields (`msg_type`, `size`, `session_id`,
`flags`). -/
structure MessageHeader where
  msg_type : MessageType
  size : Nat
  session_id : Nat
  flags : Nat

/-- The class constant `MessageHeader.SIZE = 12` (the deserializer slices the
first `SIZE` bytes as the header). -/
def MessageHeader.SIZE : Nat := 12

/-- Big-endian bytes of a 16-bit value (`!H`). -/
def be16 (v : Nat) : List Nat := [v / 256 % 256, v % 256]

/-- Big-endian bytes of a 32-bit value (`!I`). -/
def be32 (v : Nat) : List Nat :=
  [v / 16777216 % 256, v / 65536 % 256, v / 256 % 256, v % 256]

/-- Value of big-endian bytes. -/
def beNat (bs : List Nat) : Nat := bs.foldl (fun acc b => acc * 256 + b) 0

/-- `MessageHeader.pack`: `struct.pack('!HIII', ...)`.  The format is
2+4+4+4 = 14 bytes; `none` models the `struct.error` raised when a field is
out of range for its width. -/
def MessageHeader.pack (h : MessageHeader) : Option (List Nat) :=
  if h.msg_type.toVal < 65536 ∧ h.size < 4294967296 ∧ h.session_id < 4294967296 ∧
      h.flags < 4294967296 then
    some (be16 h.msg_type.toVal ++ be32 h.size ++ be32 h.session_id ++ be32 h.flags)
  else none

/-- `MessageHeader.unpack`: `struct.unpack('!HIII', data)` followed by
`MessageType(value)`.  `struct.error` is raised unless the buffer is exactly
the 14 bytes the format requires; `ValueError` is raised for an unknown type
value. -/
def MessageHeader.unpack (data : List Nat) : Except PyExn MessageHeader :=
  if data.length = 14 then
    let b := fun i => data.getD i 0
    match MessageType.fromVal (b 0 * 256 + b 1) with
    | none => .error .valueError
    | some t =>
      .ok { msg_type := t, size := beNat [b 2, b 3, b 4, b 5],
            session_id := beNat [b 6, b 7, b 8, b 9],
            flags := beNat [b 10, b 11, b 12, b 13] }
  else .error .structError

/-- The `GameMessage` container (`timestamp` and `sequence` are set to 0 by
the constructor). -/
structure GameMessage where
  msg_type : MessageType
  data : JValue
  session_id : Nat
  timestamp : Nat := 0
  sequence : Nat := 0

/-- `GameMessage.serialize`: compact-JSON-encode the payload, build a header
carrying the payload byte length and the session id (flags default 0), and
emit header bytes followed by payload bytes.  `none` models the only failure
mode, a `struct.error` from `pack` on an out-of-range field. -/
def GameMessage.serialize (m : GameMessage) : Option (List Nat) :=
  let jsonBytes := utf8Encode (dumpJson m.data)
  (MessageHeader.pack
      { msg_type := m.msg_type, size := jsonBytes.length,
        session_id := m.session_id, flags := 0 }).map (· ++ jsonBytes)

/-- The observable outcome of `GameMessage.deserialize`: a returned message, a
returned `None`, or an uncaught Python exception. -/
inductive DeserializeResult where
  | ok (m : GameMessage)
  | returnedNone
  | raised (e : PyExn)

/-- Whether deserialization ended in an uncaught exception. -/
def DeserializeResult.isRaised : DeserializeResult → Bool
  | .raised _ => true
  | _ => false

/-- `GameMessage.deserialize`: return `None` when fewer than
`MessageHeader.SIZE = 12` bytes are available; unpack the first 12 bytes as
the header (the `'!HIII'` format actually needs 14, so this raises
`struct.error` whenever reached); return `None` when fewer than `size` bytes
follow; decode the payload slice as UTF-8 (uncaught `UnicodeDecodeError` on
invalid bytes); parse JSON, catching only `json.JSONDecodeError` as `None`;
otherwise build the message from the header fields and payload. -/
def GameMessage.deserialize (data : List Nat) : DeserializeResult :=
  if data.length < MessageHeader.SIZE then .returnedNone
  else
    match MessageHeader.unpack (data.take MessageHeader.SIZE) with
    | .error e => .raised e
    | .ok header =>
      if data.length < MessageHeader.SIZE + header.size then .returnedNone
      else
        let payload := (data.drop MessageHeader.SIZE).take header.size
        match utf8Decode payload with
        | none => .raised .unicodeDecodeError
        | some s =>
          match pyJsonLoads s with
          | none => .returnedNone
          | some d =>
            .ok { msg_type := header.msg_type, data := d,
                  session_id := header.session_id }

/-! ## Client game state (`clients/ogre3d-py/game/__init__.py`)

Positions and velocities are 3-element float lists in the source; they are
modelled as exact rational triples.  Times (`time.time()`) are passed in as
an explicit `now : ℚ` argument. -/

/-- A 3-component vector (`[x, y, z]` float list). -/
structure V3 where
  x : ℚ
  y : ℚ
  z : ℚ
deriving DecidableEq

/-- The `PlayerState` dataclass with its field defaults. -/
structure PlayerState where
  player_id : Int := 0
  position : V3 := ⟨0, 0, 0⟩
  rotation : List ℚ := [0, 0, 0, 1]
  velocity : V3 := ⟨0, 0, 0⟩
  health : Int := 100
  max_health : Int := 100
  mana : Int := 100
  max_mana : Int := 100
  level : Int := 1
  experience : Int := 0
  inventory : List (String × JValue) := []
  equipment : List (String × JValue) := []
  skills : List (String × JValue) := []

/-- The `EntityState` dataclass. -/
structure EntityState where
  entity_id : Int
  entity_type : String
  position : V3
  rotation : List ℚ
  velocity : V3
  health : Int := 100
  max_health : Int := 100
  mesh_name : String := ""
  material_name : String := ""
  visible : Bool := true
  animation : Option String := none
  data : List (String × JValue) := []

/-- The `WorldChunk` dataclass (`last_accessed` defaults to `time.time()`,
supplied by the caller in this embedding). -/
structure WorldChunk where
  chunk_x : Int
  chunk_z : Int
  terrain_data : List (List ℚ)
  entities : List EntityState
  loaded : Bool := false
  last_accessed : ℚ

/-- One retained chat message (the dict built by `handle_chat_message`). -/
structure ChatEntry where
  sender : String
  message : String
  channel : String
  timestamp : ℚ
deriving DecidableEq

/-- The `GameStateManager` fields that the inbound-record handlers and the
snapshot pair read or write.  (Fields such as input or camera state are
untouched by every operation modelled here and are omitted.) -/
structure GameState where
  player : PlayerState
  entities : List (Int × EntityState)
  chunks : List (String × WorldChunk)
  chat_messages : List ChatEntry
  game_time : ℚ
  time_of_day : ℚ

/-- The state built by `GameStateManager.__init__`. -/
def initGameState : GameState :=
  { player := {}, entities := [], chunks := [], chat_messages := [],
    game_time := 0, time_of_day := 12 }

/-- One `entity_info` dict of a world-chunk or entity-update record: `id` is
required (the handlers subscript it), every other key is optional.  The
`animation` key may be present with value `None`, hence the nested option. -/
structure EntityInfo where
  id : Int
  etype : Option String := none
  position : Option V3 := none
  rotation : Option (List ℚ) := none
  velocity : Option V3 := none
  health : Option Int := none
  max_health : Option Int := none
  mesh : Option String := none
  material : Option String := none
  visible : Option Bool := none
  animation : Option (Option String) := none
  data : Option (List (String × JValue)) := none

/-- An inbound record as dispatched by `apply_server_update` on its `type`
key.  Optional fields mirror the `dict.get` defaults in the handlers; the
`removed` list is carried because `MessageParser.parse_entity_update`
extracts it, although no handler reads it. -/
inductive ServerUpdate where
  | world_chunk (chunk_x chunk_z : Int) (terrain : Option (List (List ℚ)))
      (ents : Option (List EntityInfo))
  | entity_update (ents : Option (List EntityInfo)) (removed : Option (List Int))
  | player_update (health : Option Int) (max_health : Option Int)
      (position : Option V3) (rotation : Option (List ℚ))
  | chat (sender : Option String) (message : Option String) (channel : Option String)
  | collision (entity1 entity2 : Option Int) (point : Option V3)
  | npc_interaction (npc_id : Option Int) (interaction_type : Option String)

/-- The chunk key `f"{chunk_x}_{chunk_z}"`. -/
def chunkKey (cx cz : Int) : String := toString cx ++ "_" ++ toString cz

/-- The `EntityState(...)` constructor call in `create_entity_from_data`,
with the source's `.get` defaults. -/
def mkEntityFromData (ei : EntityInfo) : EntityState :=
  { entity_id := ei.id,
    entity_type := ei.etype.getD "unknown",
    position := ei.position.getD ⟨0, 0, 0⟩,
    rotation := ei.rotation.getD [0, 0, 0, 1],
    velocity := ei.velocity.getD ⟨0, 0, 0⟩,
    health := ei.health.getD 100,
    max_health := ei.max_health.getD 100,
    mesh_name := ei.mesh.getD "",
    material_name := ei.material.getD "",
    visible := ei.visible.getD true,
    animation := ei.animation.join,
    data := ei.data.getD [] }

/-- `create_entity_from_data`: build an `EntityState` with the source's
`.get` defaults and store it under its identifier. -/
def create_entity_from_data (ei : EntityInfo) (s : GameState) : GameState :=
  let entity := mkEntityFromData ei
  { s with entities := dictSet entity.entity_id entity s.entities }

/-- The field mutations of `update_entity_from_data` on the stored entity:
position by exponential interpolation with factor `0.2` (the float literal,
exact here), rotation/health/visible/animation replaced outright when
present, and the free-form `data` dict merged. -/
def applyEntityFieldUpdates (ei : EntityInfo) (e : EntityState) : EntityState :=
  let e := match ei.position with
    | some p =>
      { e with position :=
          ⟨e.position.x + (p.x - e.position.x) * (0.2 : ℚ),
           e.position.y + (p.y - e.position.y) * (0.2 : ℚ),
           e.position.z + (p.z - e.position.z) * (0.2 : ℚ)⟩ }
    | none => e
  let e := match ei.rotation with
    | some r => { e with rotation := r }
    | none => e
  let e := match ei.health with
    | some h => { e with health := h }
    | none => e
  let e := match ei.visible with
    | some v => { e with visible := v }
    | none => e
  let e := match ei.animation with
    | some a => { e with animation := a }
    | none => e
  match ei.data with
    | some d => { e with data := dictUpdate e.data d }
    | none => e

/-- `update_entity_from_data`: no-op when the identifier is unknown; else the
stored entity is mutated in place by `applyEntityFieldUpdates`. -/
def update_entity_from_data (eid : Int) (ei : EntityInfo) (s : GameState) : GameState :=
  match dictGet eid s.entities with
  | none => s
  | some _ =>
    { s with entities := dictModify eid (applyEntityFieldUpdates ei) s.entities }

/-- `update_player_from_data`: server-authoritative player update — position
is snapped to the reported value (no smoothing), rotation, health and
max-health replaced when present.  The player identifier is never written. -/
def update_player_from_data (pd : EntityInfo) (s : GameState) : GameState :=
  let s := match pd.position with
    | some p => { s with player := { s.player with position := p } }
    | none => s
  let s := match pd.rotation with
    | some r => { s with player := { s.player with rotation := r } }
    | none => s
  let s := match pd.health with
    | some h => { s with player := { s.player with health := h } }
    | none => s
  match pd.max_health with
    | some mh => { s with player := { s.player with max_health := mh } }
    | none => s

/-- One iteration of the `handle_entity_update` loop: a payload whose
identifier equals the player's identifier updates the player; any other
identifier is updated if known, created otherwise. -/
def entity_update_step (s : GameState) (ei : EntityInfo) : GameState :=
  if ei.id = s.player.player_id then update_player_from_data ei s
  else if (dictGet ei.id s.entities).isSome then update_entity_from_data ei.id ei s
  else create_entity_from_data ei s

/-- `handle_entity_update`: process each entity payload in order. -/
def handle_entity_update (ents : Option (List EntityInfo)) (s : GameState) : GameState :=
  (ents.getD []).foldl entity_update_step s

/-- One iteration of the `handle_world_chunk` entity loop: update if known,
create otherwise.  Unlike `entity_update_step`, there is no
player-identifier check. -/
def world_chunk_entity_step (s : GameState) (ei : EntityInfo) : GameState :=
  if (dictGet ei.id s.entities).isSome then update_entity_from_data ei.id ei s
  else create_entity_from_data ei s

/-- `handle_world_chunk`: create the chunk if absent (terrain from the nested
`data.terrain` key, empty entity list), mark it loaded and refresh its access
time, then create-or-update every entity in the chunk payload.  Note the
entity loop has no player-identifier check. -/
def handle_world_chunk (now : ℚ) (cx cz : Int) (terrain : Option (List (List ℚ)))
    (ents : Option (List EntityInfo)) (s : GameState) : GameState :=
  let key := chunkKey cx cz
  let fresh : WorldChunk :=
    { chunk_x := cx, chunk_z := cz, terrain_data := terrain.getD [],
      entities := [], last_accessed := now }
  let s :=
    if (dictGet key s.chunks).isSome then s
    else { s with chunks := dictSet key fresh s.chunks }
  let touch := fun (c : WorldChunk) => { c with loaded := true, last_accessed := now }
  let s := { s with chunks := dictModify key touch s.chunks }
  (ents.getD []).foldl world_chunk_entity_step s

/-- `handle_player_update`: replace health, max-health, position and rotation
when the record carries them. -/
def handle_player_update (h mh : Option Int) (p : Option V3) (r : Option (List ℚ))
    (s : GameState) : GameState :=
  let s := match h with
    | some v => { s with player := { s.player with health := v } }
    | none => s
  let s := match mh with
    | some v => { s with player := { s.player with max_health := v } }
    | none => s
  let s := match p with
    | some v => { s with player := { s.player with position := v } }
    | none => s
  match r with
    | some v => { s with player := { s.player with rotation := v } }
    | none => s

/-- `handle_chat_message`: append the message dict (with `.get` defaults and
the current wall-clock time) and keep only the last 1000 messages. -/
def handle_chat_message (now : ℚ) (sender msg chan : Option String)
    (s : GameState) : GameState :=
  let m : ChatEntry :=
    { sender := sender.getD "Unknown", message := msg.getD "",
      channel := chan.getD "global", timestamp := now }
  let l := s.chat_messages ++ [m]
  { s with chat_messages := if l.length > 1000 then l.drop (l.length - 1000) else l }

/-- `apply_server_update`: dispatch on the record type.  Collision and NPC
interaction handlers only produce side effects outside the state (a print, a
dialogue/trade/quest stub), so the state is returned unchanged. -/
def apply_server_update (now : ℚ) (s : GameState) : ServerUpdate → GameState
  | .world_chunk cx cz terrain ents => handle_world_chunk now cx cz terrain ents s
  | .entity_update ents _removed => handle_entity_update ents s
  | .player_update h mh p r => handle_player_update h mh p r s
  | .chat sender msg chan => handle_chat_message now sender msg chan s
  | .collision _ _ _ => s
  | .npc_interaction _ _ => s

/-- `cleanup_chunks`: remove every chunk whose last access is more than 60
seconds before `now` (the source collects keys with
`now - chunk.last_accessed > 60` and deletes them). -/
def cleanup_chunks (now : ℚ) (s : GameState) : GameState :=
  { s with chunks := s.chunks.filter (fun kc => !decide (now - kc.2.last_accessed > 60)) }

/-! ### Snapshot save / load (`save_state` / `load_state`)

The JSON file round-trip is the identity on the dumped data under this
embedding (ints, exact floats and strings round-trip through `json.dump` /
`json.load`); what `save_state` writes is therefore modelled as a typed
snapshot.  Chunks are saved as metadata only: `chunk_x`, `chunk_z`,
`loaded`. -/

/-- The per-chunk metadata dict written by `save_state`. -/
structure ChunkMeta where
  chunk_x : Int
  chunk_z : Int
  loaded : Bool

/-- The snapshot dict written by `save_state` (player dict, entity dicts
keyed by identifier, chunk metadata, game clock).  Integer entity keys are
written as their decimal strings and read back with `int(eid)`, an identity
composite, so they stay `Int` here. -/
structure Snapshot where
  player : PlayerState
  entities : List (Int × EntityState)
  chunks : List (String × ChunkMeta)
  game_time : ℚ
  time_of_day : ℚ

/-- `save_state`: dump player, entities, chunk metadata and the game clock. -/
def save_state (s : GameState) : Snapshot :=
  { player := s.player,
    entities := s.entities,
    chunks := s.chunks.map (fun kc => (kc.1, ⟨kc.2.chunk_x, kc.2.chunk_z, kc.2.loaded⟩)),
    game_time := s.game_time,
    time_of_day := s.time_of_day }

/-- The call `WorldChunk(**cdata)` in `load_state`, where `cdata` holds only
`chunk_x`, `chunk_z` and `loaded`: the dataclass requires `terrain_data` and
`entities`, which have no defaults, so the call raises `TypeError`
unconditionally. -/
def worldChunkOfMeta (_ : ChunkMeta) : Except PyExn WorldChunk :=
  .error .typeError

/-- Reconstructing the chunk map in `load_state`'s loop: the first chunk
entry raises, so a non-empty saved chunk map never loads. -/
def loadChunksOfMeta : List (String × ChunkMeta) → Except PyExn (List (String × WorldChunk))
  | [] => .ok []
  | (k, m) :: rest => do
    let c ← worldChunkOfMeta m
    let cs ← loadChunksOfMeta rest
    return (k, c) :: cs

/-- `load_state`: inside a `try`, replace the player, clear and reload the
entity map, clear the chunk map and rebuild it from the saved metadata, then
restore the clock and return `True`; any exception is caught and `False` is
returned with the state left as mutated so far (the chunk rebuild raises on
its first entry, so the chunk map is left empty). -/
def load_state (snap : Snapshot) (s : GameState) : Bool × GameState :=
  let s := { s with player := snap.player }
  let s := { s with entities := snap.entities }
  let s := { s with chunks := [] }
  match loadChunksOfMeta snap.chunks with
  | .error _ => (false, s)
  | .ok cs =>
    (true, { s with
             chunks := cs
             game_time := snap.game_time
             time_of_day := snap.time_of_day })

/-! ## Derived update sequences and fixtures used by the claims -/

/-- The number of entries of a dict carrying a given key. -/
def keyCount {α β : Type} [DecidableEq α] (k : α) (d : List (α × β)) : Nat :=
  (d.filter (fun kv => decide (kv.1 = k))).length

/-- An entity payload carrying only an identifier and a reported position. -/
def posOnlyInfo (eid : Int) (p : V3) : EntityInfo :=
  { id := eid, position := some p }

/-- An entity-update record reporting one position for one entity. -/
def entityPosUpdate (eid : Int) (p : V3) : ServerUpdate :=
  .entity_update (some [posOnlyInfo eid p]) none

/-- `n` repeated applications of the same reported position. -/
def applyEntityPosUpdates (now : ℚ) (eid : Int) (p : V3) : Nat → GameState → GameState
  | 0, s => s
  | n + 1, s =>
    apply_server_update now (applyEntityPosUpdates now eid p n s) (entityPosUpdate eid p)

/-- Apply a sequence of timestamped inbound records in arrival order. -/
def applyUpdates (us : List (ℚ × ServerUpdate)) (s : GameState) : GameState :=
  us.foldl (fun s' tu => apply_server_update tu.1 s' tu.2) s

/-- Whether a record is a world-chunk record whose entity list mentions the
given identifier. -/
def mentionsPlayerWC (pid : Int) : ServerUpdate → Bool
  | .world_chunk _ _ _ ents => (ents.getD []).any (fun ei => ei.id == pid)
  | _ => false

/-- One inbound chat record together with its arrival time. -/
structure ChatRec where
  now : ℚ
  sender : Option String := none
  message : Option String := none
  channel : Option String := none

/-- The chat dict that `handle_chat_message` retains for a chat record. -/
def chatEntryOf (c : ChatRec) : ChatEntry :=
  { sender := c.sender.getD "Unknown", message := c.message.getD "",
    channel := c.channel.getD "global", timestamp := c.now }

/-- Apply a sequence of chat records in arrival order. -/
def applyChatRecords (cs : List ChatRec) (s : GameState) : GameState :=
  cs.foldl (fun s' c => apply_server_update c.now s' (.chat c.sender c.message c.channel)) s

/-- A concrete non-player entity fixture (identifier 5 at the origin). -/
def npcFixture : EntityState :=
  { entity_id := 5, entity_type := "npc", position := ⟨0, 0, 0⟩,
    rotation := [0, 0, 0, 1], velocity := ⟨0, 0, 0⟩ }

/-- The fresh state holding only the fixture entity 5. -/
def c3State : GameState :=
  { initGameState with entities := [(5, npcFixture)] }

/-- A state holding one loaded chunk, for the snapshot claims. -/
def c9ChunkState : GameState :=
  { initGameState with
    chunks := [("0_0",
      { chunk_x := 0, chunk_z := 0, terrain_data := [], entities := [],
        loaded := true, last_accessed := 0 })] }

/-- A concrete mixed update sequence touching no world-chunk player entry. -/
def c5WitnessUpdates : List (ℚ × ServerUpdate) :=
  [(0, .chat none none none),
   (0, .entity_update (some [{ id := 7 }]) none),
   (0, .world_chunk 1 2 none (some [{ id := 9 }]))]

/-! ## Helper lemmas about the dict operations -/

theorem dictGet_set_self {α β : Type} [DecidableEq α] (k : α) (v : β) (d : List (α × β)) :
    dictGet k (dictSet k v d) = some v := by
  induction d with
  | nil => simp [dictGet, dictSet]
  | cons kv rest ih =>
    by_cases h : kv.1 = k <;> simp [dictGet, dictSet, h, ih]

theorem dictGet_set_ne {α β : Type} [DecidableEq α] {k k' : α} (v : β) (d : List (α × β))
    (h : k' ≠ k) : dictGet k' (dictSet k v d) = dictGet k' d := by
  have h' : ¬ (k = k') := fun e => h e.symm
  induction d with
  | nil => simp [dictGet, dictSet, h']
  | cons kv rest ih =>
    by_cases hk : kv.1 = k
    · simp [dictGet, dictSet, hk, h']
    · by_cases hk' : kv.1 = k' <;> simp [dictGet, dictSet, hk, hk', h, ih]

theorem dictGet_modify_self {α β : Type} [DecidableEq α] (k : α) (f : β → β)
    (d : List (α × β)) : dictGet k (dictModify k f d) = (dictGet k d).map f := by
  induction d with
  | nil => rfl
  | cons kv rest ih =>
    simp only [dictModify, List.map_cons] at *
    by_cases h : kv.1 = k
    · simp [dictGet, h]
    · simp [dictGet, h, ih]

theorem dictGet_modify_ne {α β : Type} [DecidableEq α] {k k' : α} (f : β → β)
    (d : List (α × β)) (h : k' ≠ k) : dictGet k' (dictModify k f d) = dictGet k' d := by
  have h' : ¬ (k = k') := fun e => h e.symm
  induction d with
  | nil => rfl
  | cons kv rest ih =>
    simp only [dictModify, List.map_cons] at *
    by_cases hm : kv.1 = k
    · simp [dictGet, hm, h', ih]
    · by_cases hk' : kv.1 = k' <;> simp [dictGet, hm, hk', h, ih]

theorem dictGet_set_isSome {α β : Type} [DecidableEq α] (k k' : α) (v : β)
    (d : List (α × β)) (h : (dictGet k' d).isSome = true) :
    (dictGet k' (dictSet k v d)).isSome = true := by
  by_cases hk : k' = k
  · subst hk; simp [dictGet_set_self]
  · rwa [dictGet_set_ne v d hk]

theorem dictGet_modify_isSome {α β : Type} [DecidableEq α] (k k' : α) (f : β → β)
    (d : List (α × β)) (h : (dictGet k' d).isSome = true) :
    (dictGet k' (dictModify k f d)).isSome = true := by
  by_cases hk : k' = k
  · subst hk; rw [dictGet_modify_self]; simpa using h
  · rwa [dictGet_modify_ne f d hk]

theorem keyCount_of_get_none {α β : Type} [DecidableEq α] {k : α} {d : List (α × β)}
    (h : dictGet k d = none) : keyCount k d = 0 := by
  induction d with
  | nil => rfl
  | cons kv rest ih =>
    by_cases hk : kv.1 = k
    · simp [dictGet, hk] at h
    · simp [dictGet, hk] at h
      simpa [keyCount, List.filter_cons, hk] using ih h

theorem keyCount_set_of_none {α β : Type} [DecidableEq α] {k : α} (v : β)
    {d : List (α × β)} (h : dictGet k d = none) : keyCount k (dictSet k v d) = 1 := by
  induction d with
  | nil => simp [dictSet, keyCount, List.filter_cons]
  | cons kv rest ih =>
    by_cases hk : kv.1 = k
    · simp [dictGet, hk] at h
    · simp [dictGet, hk] at h
      simpa [dictSet, hk, keyCount, List.filter_cons] using ih h

theorem keyCount_modify {α β : Type} [DecidableEq α] (k k' : α) (f : β → β)
    (d : List (α × β)) : keyCount k (dictModify k' f d) = keyCount k d := by
  unfold keyCount dictModify
  induction d with
  | nil => rfl
  | cons kv rest ih =>
    simp only [List.map_cons, List.filter_cons]
    by_cases hm : kv.1 = k'
    · by_cases hk : kv.1 = k
      · have hkk : k' = k := hm.symm.trans hk
        subst hkk
        simp [hm, ih]
      · have hkk : ¬ k' = k := fun e => hk (hm.trans e)
        simp [hm, hk, hkk, ih]
    · by_cases hk : kv.1 = k
      · have hkk : ¬ k = k' := fun e => hm (hk.trans e)
        simp [hm, hk, hkk, ih]
      · simp [hm, hk, ih]

/-! ## C1 / C2: the codec -/

theorem pack_length (h : MessageHeader) (bs : List Nat)
    (hp : MessageHeader.pack h = some bs) : bs.length = 14 := by
  unfold MessageHeader.pack at hp
  split at hp
  · cases hp; simp [be16, be32]
  · exact absurd hp (by simp)

/-- Claim C1 (status: code_bug).  The spec's round-trip law
`decode(encode(record)) = record` fails for every record: `serialize`
emits a 14-byte `'!HIII'` header, while `deserialize` slices
`MessageHeader.SIZE = 12` bytes and unpacks them with the same 14-byte
format, so every successfully serialized message deserializes to an uncaught
`struct.error`. -/
theorem c1_roundtrip_always_raises (m : GameMessage) (bs : List Nat)
    (h : GameMessage.serialize m = some bs) :
    GameMessage.deserialize bs = DeserializeResult.raised PyExn.structError := by
  have hlen : 14 ≤ bs.length := by
    simp only [GameMessage.serialize, Option.map_eq_some'] at h
    obtain ⟨hb, hp, hcat⟩ := h
    have hbl := pack_length _ _ hp
    rw [← hcat]
    simp [hbl]
  have htake : (bs.take MessageHeader.SIZE).length = 12 := by
    simp [List.length_take, MessageHeader.SIZE]
    omega
  unfold GameMessage.deserialize
  rw [if_neg (by simp [MessageHeader.SIZE]; omega)]
  unfold MessageHeader.unpack
  rw [if_neg (by rw [htake]; omega)]

/-- Witness for C1 at a concrete record: the serialized `PING` message with
empty payload and session 0 deserializes to the uncaught `struct.error`. -/
theorem c1_roundtrip_witness :
    GameMessage.deserialize [0, 12, 0, 0, 0, 2, 0, 0, 0, 0, 0, 0, 0, 0, 123, 125]
      = DeserializeResult.raised PyExn.structError :=
  c1_roundtrip_always_raises
    { msg_type := .PING, data := .obj [], session_id := 0 } _ (by decide)

/-- Claim C2 (status: corrected).  Amended behavior of `deserialize`: a
buffer shorter than `MessageHeader.SIZE = 12` bytes returns `None` (a single
undifferentiated failure value, not a distinct `IncompleteHeader`); any
buffer of 12 or more bytes raises an uncaught `struct.error`, because the
12-byte header slice can never satisfy the 14-byte `'!HIII'` format — so the
`IncompleteBody`, `UnknownMessageType` and `MalformedPayload` conditions are
unreachable and decode is not total. -/
theorem c2_decode_characterization (bs : List Nat) :
    GameMessage.deserialize bs =
      if bs.length < 12 then DeserializeResult.returnedNone
      else DeserializeResult.raised PyExn.structError := by
  unfold GameMessage.deserialize
  by_cases h : bs.length < 12
  · simp [MessageHeader.SIZE, h]
  · have htake : (bs.take MessageHeader.SIZE).length = 12 := by
      simp [List.length_take, MessageHeader.SIZE]
      omega
    rw [if_neg (by simpa [MessageHeader.SIZE] using h), if_neg h]
    unfold MessageHeader.unpack
    rw [if_neg (by rw [htake]; omega)]

/-- Counterexample for C2 as stated: decode is not total — the 12-byte
all-zero buffer (which the claim says reports `IncompleteBody` or
`UnknownMessageType`, not an uncaught failure) raises an uncaught
exception. -/
theorem c2_uncaught_failure_counterexample :
    ¬ (∀ bs : List Nat, (GameMessage.deserialize bs).isRaised = false) := fun hall =>
  absurd (hall (List.replicate 12 0)) (by decide)

/-! ## Step lemmas for the reconciler handlers -/

theorem foldl_invariant_mem {σ ι : Type} (P : σ → Prop) (step : σ → ι → σ)
    (l : List ι) (hstep : ∀ s i, i ∈ l → P s → P (step s i)) :
    ∀ s : σ, P s → P (l.foldl step s) := by
  induction l with
  | nil => intro s hs; exact hs
  | cons a t ih =>
    intro s hs
    exact ih (fun s' i hi => hstep s' i (List.mem_cons_of_mem a hi)) _
      (hstep s a (List.mem_cons_self a t) hs)

theorem update_player_player_id (pd : EntityInfo) (s : GameState) :
    (update_player_from_data pd s).player.player_id = s.player.player_id := by
  unfold update_player_from_data
  cases pd.position <;> cases pd.rotation <;> cases pd.health <;> cases pd.max_health <;> rfl

theorem update_player_entities (pd : EntityInfo) (s : GameState) :
    (update_player_from_data pd s).entities = s.entities := by
  unfold update_player_from_data
  cases pd.position <;> cases pd.rotation <;> cases pd.health <;> cases pd.max_health <;> rfl

theorem update_player_pos (pd : EntityInfo) (s : GameState) (p : V3)
    (h : pd.position = some p) : (update_player_from_data pd s).player.position = p := by
  unfold update_player_from_data
  rw [h]
  cases pd.rotation <;> cases pd.health <;> cases pd.max_health <;> rfl

theorem update_entity_player (eid : Int) (ei : EntityInfo) (s : GameState) :
    (update_entity_from_data eid ei s).player = s.player := by
  unfold update_entity_from_data
  cases dictGet eid s.entities <;> rfl

theorem create_entity_player (ei : EntityInfo) (s : GameState) :
    (create_entity_from_data ei s).player = s.player := rfl

theorem create_entity_entities (ei : EntityInfo) (s : GameState) :
    (create_entity_from_data ei s).entities = dictSet ei.id (mkEntityFromData ei) s.entities :=
  rfl

theorem handle_player_update_player_id (h mh : Option Int) (p : Option V3)
    (r : Option (List ℚ)) (s : GameState) :
    (handle_player_update h mh p r s).player.player_id = s.player.player_id := by
  unfold handle_player_update
  cases h <;> cases mh <;> cases p <;> cases r <;> rfl

theorem handle_player_update_entities (h mh : Option Int) (p : Option V3)
    (r : Option (List ℚ)) (s : GameState) :
    (handle_player_update h mh p r s).entities = s.entities := by
  unfold handle_player_update
  cases h <;> cases mh <;> cases p <;> cases r <;> rfl

theorem handle_player_update_pos (h mh : Option Int) (r : Option (List ℚ))
    (s : GameState) (p : V3) :
    (handle_player_update h mh (some p) r s).player.position = p := by
  unfold handle_player_update
  cases h <;> cases mh <;> cases r <;> rfl

theorem entity_update_step_eq_player (s : GameState) (ei : EntityInfo)
    (h : ei.id = s.player.player_id) :
    entity_update_step s ei = update_player_from_data ei s := by
  unfold entity_update_step
  rw [if_pos h]

theorem entity_update_step_player_id (s : GameState) (ei : EntityInfo) :
    (entity_update_step s ei).player.player_id = s.player.player_id := by
  unfold entity_update_step
  by_cases h : ei.id = s.player.player_id
  · simp only [h, if_pos rfl]
    exact update_player_player_id ei s
  · rw [if_neg h]
    by_cases h2 : (dictGet ei.id s.entities).isSome = true
    · rw [if_pos h2, update_entity_player]
    · rw [if_neg h2, create_entity_player]

theorem world_chunk_entity_step_player (s : GameState) (ei : EntityInfo) :
    (world_chunk_entity_step s ei).player = s.player := by
  unfold world_chunk_entity_step
  by_cases h2 : (dictGet ei.id s.entities).isSome = true
  · rw [if_pos h2, update_entity_player]
  · rw [if_neg h2, create_entity_player]

theorem handle_world_chunk_player (now : ℚ) (cx cz : Int)
    (t : Option (List (List ℚ))) (ents : Option (List EntityInfo)) (s : GameState) :
    (handle_world_chunk now cx cz t ents s).player = s.player := by
  simp only [handle_world_chunk]
  refine foldl_invariant_mem (fun st => st.player = s.player) world_chunk_entity_step
    (ents.getD [])
    (fun st ei _ h => (world_chunk_entity_step_player st ei).trans h) _ ?_
  split <;> rfl

theorem apply_player_id (now : ℚ) (s : GameState) (u : ServerUpdate) :
    (apply_server_update now s u).player.player_id = s.player.player_id := by
  cases u with
  | world_chunk cx cz t ents =>
    simp only [apply_server_update]
    rw [handle_world_chunk_player]
  | entity_update ents rem =>
    simp only [apply_server_update, handle_entity_update]
    exact foldl_invariant_mem (fun st => st.player.player_id = s.player.player_id)
      entity_update_step (ents.getD [])
      (fun st ei _ h => (entity_update_step_player_id st ei).trans h) _ rfl
  | player_update h mh p r =>
    simp only [apply_server_update]
    exact handle_player_update_player_id h mh p r s
  | chat sender msg chan => rfl
  | collision e1 e2 pt => rfl
  | npc_interaction nid it => rfl

theorem update_entity_keeps (k : Int) (ei : EntityInfo) (s : GameState) (eid : Int)
    (h : (dictGet eid s.entities).isSome = true) :
    (dictGet eid (update_entity_from_data k ei s).entities).isSome = true := by
  unfold update_entity_from_data
  split
  · exact h
  · exact dictGet_modify_isSome k eid (applyEntityFieldUpdates ei) s.entities h

theorem create_entity_keeps (ei : EntityInfo) (s : GameState) (eid : Int)
    (h : (dictGet eid s.entities).isSome = true) :
    (dictGet eid (create_entity_from_data ei s).entities).isSome = true := by
  rw [create_entity_entities]
  exact dictGet_set_isSome ei.id eid _ s.entities h

theorem entity_update_step_keeps (s : GameState) (ei : EntityInfo) (eid : Int)
    (h : (dictGet eid s.entities).isSome = true) :
    (dictGet eid (entity_update_step s ei).entities).isSome = true := by
  unfold entity_update_step
  by_cases hid : ei.id = s.player.player_id
  · rw [if_pos hid, update_player_entities]; exact h
  · rw [if_neg hid]
    by_cases h2 : (dictGet ei.id s.entities).isSome = true
    · rw [if_pos h2]; exact update_entity_keeps ei.id ei s eid h
    · rw [if_neg h2]; exact create_entity_keeps ei s eid h

theorem world_chunk_entity_step_keeps (s : GameState) (ei : EntityInfo) (eid : Int)
    (h : (dictGet eid s.entities).isSome = true) :
    (dictGet eid (world_chunk_entity_step s ei).entities).isSome = true := by
  unfold world_chunk_entity_step
  by_cases h2 : (dictGet ei.id s.entities).isSome = true
  · rw [if_pos h2]; exact update_entity_keeps ei.id ei s eid h
  · rw [if_neg h2]; exact create_entity_keeps ei s eid h

/-! ## C10: entities are never removed by server updates -/

/-- Claim C10 (status: confirmed).  No application of an inbound record via
`apply_server_update` ever removes a key from the entity map, and the
`removed` list carried by an entity-update record is never acted on: the
result is identical for any value of that list. -/
theorem c10_entities_never_removed (now : ℚ) (s : GameState) (u : ServerUpdate) (eid : Int) :
    ((dictGet eid s.entities).isSome = true →
      (dictGet eid (apply_server_update now s u).entities).isSome = true)
    ∧ (∀ (ents : Option (List EntityInfo)) (rem rem' : Option (List Int)),
        apply_server_update now s (.entity_update ents rem) =
          apply_server_update now s (.entity_update ents rem')) := by
  constructor
  · intro h
    cases u with
    | world_chunk cx cz t ents =>
      simp only [apply_server_update, handle_world_chunk]
      refine foldl_invariant_mem (fun st => (dictGet eid st.entities).isSome = true)
        world_chunk_entity_step (ents.getD [])
        (fun st ei _ hst => world_chunk_entity_step_keeps st ei eid hst) _ ?_
      split <;> exact h
    | entity_update ents rem =>
      simp only [apply_server_update, handle_entity_update]
      exact foldl_invariant_mem (fun st => (dictGet eid st.entities).isSome = true)
        entity_update_step (ents.getD [])
        (fun st ei _ hst => entity_update_step_keeps st ei eid hst) _ h
    | player_update hh mh p r =>
      simp only [apply_server_update]
      rw [handle_player_update_entities]
      exact h
    | chat sender msg chan => exact h
    | collision e1 e2 pt => exact h
    | npc_interaction nid it => exact h
  · intro ents rem rem'
    rfl

/-- Witness for C10: entity 5 survives an entity-update record that lists a
new entity 9 and names 5 in its `removed` list. -/
theorem c10_entities_never_removed_witness :
    (dictGet 5 (apply_server_update 0
        { initGameState with
          entities := [(5, mkEntityFromData { id := 5 })] }
        (.entity_update (some [{ id := 9 }]) (some [5]))).entities).isSome = true :=
  (c10_entities_never_removed 0
    { initGameState with entities := [(5, mkEntityFromData { id := 5 })] }
    (.entity_update (some [{ id := 9 }]) (some [5])) 5).1 rfl

/-! ## C4: player authority -/

/-- Claim C4 (status: confirmed).  A `player_update` record carrying a
position snaps the player's position to exactly the reported value, and so
does any entity payload of an `entity_update` record whose identifier equals
the player's reserved identifier — no interpolation, whatever the previous
locally predicted position was. -/
theorem c4_player_authority (now : ℚ) (s : GameState) (p : V3) :
    (∀ (h mh : Option Int) (r : Option (List ℚ)),
      (apply_server_update now s (.player_update h mh (some p) r)).player.position = p)
    ∧ (∀ (pre : List EntityInfo) (ei : EntityInfo) (rem : Option (List Int)),
        ei.id = s.player.player_id → ei.position = some p →
        (apply_server_update now s
            (.entity_update (some (pre ++ [ei])) rem)).player.position = p) := by
  constructor
  · intro h mh r
    simp only [apply_server_update]
    exact handle_player_update_pos h mh r s p
  · intro pre ei rem hid hpos
    simp only [apply_server_update, handle_entity_update, Option.getD_some]
    rw [List.foldl_append, List.foldl_cons, List.foldl_nil]
    have hpid : (pre.foldl entity_update_step s).player.player_id = s.player.player_id :=
      foldl_invariant_mem (fun st => st.player.player_id = s.player.player_id)
        entity_update_step pre
        (fun st e _ h => (entity_update_step_player_id st e).trans h) _ rfl
    rw [entity_update_step_eq_player _ _ (by rw [hpid]; exact hid)]
    exact update_player_pos ei _ p hpos

/-- Witness for C4: from the fresh state, both a `player_update` and an
`entity_update` entry for the player's identifier 0 snap the player's
position to the reported `⟨1, 2, 3⟩`. -/
theorem c4_player_authority_witness :
    ((apply_server_update 0 initGameState
        (.player_update none none (some ⟨1, 2, 3⟩) none)).player.position = ⟨1, 2, 3⟩)
    ∧ ((apply_server_update 0 initGameState
        (.entity_update (some [{ id := 0, position := some ⟨1, 2, 3⟩ }]) none)).player.position
      = ⟨1, 2, 3⟩) :=
  ⟨(c4_player_authority 0 initGameState ⟨1, 2, 3⟩).1 none none none,
   (c4_player_authority 0 initGameState ⟨1, 2, 3⟩).2 [] { id := 0, position := some ⟨1, 2, 3⟩ }
     none rfl rfl⟩

/-! ## C3: the interpolation law -/

theorem entity_update_step_eq_update (s : GameState) (ei : EntityInfo)
    (h1 : ¬ ei.id = s.player.player_id) (h2 : (dictGet ei.id s.entities).isSome = true) :
    entity_update_step s ei = update_entity_from_data ei.id ei s := by
  unfold entity_update_step
  rw [if_neg h1, if_pos h2]

theorem entity_update_step_eq_create (s : GameState) (ei : EntityInfo)
    (h1 : ¬ ei.id = s.player.player_id) (h2 : ¬ (dictGet ei.id s.entities).isSome = true) :
    entity_update_step s ei = create_entity_from_data ei s := by
  unfold entity_update_step
  rw [if_neg h1, if_neg h2]

theorem entity_pos_step (now : ℚ) (s : GameState) (eid : Int) (e : EntityState) (p : V3)
    (he : dictGet eid s.entities = some e) (hne : eid ≠ s.player.player_id) :
    dictGet eid (apply_server_update now s (entityPosUpdate eid p)).entities =
        some { e with position :=
          ⟨e.position.x + (p.x - e.position.x) * (0.2 : ℚ),
           e.position.y + (p.y - e.position.y) * (0.2 : ℚ),
           e.position.z + (p.z - e.position.z) * (0.2 : ℚ)⟩ }
      ∧ (apply_server_update now s (entityPosUpdate eid p)).player = s.player := by
  have h0 : apply_server_update now s (entityPosUpdate eid p) =
      entity_update_step s (posOnlyInfo eid p) := rfl
  rw [h0, entity_update_step_eq_update s (posOnlyInfo eid p) hne (by rw [show (posOnlyInfo eid p).id = eid from rfl, he]; rfl)]
  constructor
  · unfold update_entity_from_data
    rw [show (posOnlyInfo eid p).id = eid from rfl, he]
    show dictGet eid (dictModify eid (applyEntityFieldUpdates (posOnlyInfo eid p)) s.entities)
      = _
    rw [dictGet_modify_self, he]
    rfl
  · exact update_entity_player eid (posOnlyInfo eid p) s

theorem c3_aux (now : ℚ) (s : GameState) (eid : Int) (e : EntityState) (p1 : V3)
    (he : dictGet eid s.entities = some e) (hne : eid ≠ s.player.player_id) :
    ∀ n : Nat,
      (applyEntityPosUpdates now eid p1 n s).player = s.player ∧
      dictGet eid (applyEntityPosUpdates now eid p1 n s).entities =
        some { e with position :=
          ⟨p1.x - (0.8 : ℚ) ^ n * (p1.x - e.position.x),
           p1.y - (0.8 : ℚ) ^ n * (p1.y - e.position.y),
           p1.z - (0.8 : ℚ) ^ n * (p1.z - e.position.z)⟩ } := by
  intro n
  induction n with
  | zero =>
    refine ⟨rfl, ?_⟩
    have hvx : p1.x - (0.8 : ℚ) ^ 0 * (p1.x - e.position.x) = e.position.x := by ring
    have hvy : p1.y - (0.8 : ℚ) ^ 0 * (p1.y - e.position.y) = e.position.y := by ring
    have hvz : p1.z - (0.8 : ℚ) ^ 0 * (p1.z - e.position.z) = e.position.z := by ring
    show dictGet eid s.entities = _
    rw [hvx, hvy, hvz, he]
  | succ n ih =>
    obtain ⟨ihp, ihe⟩ := ih
    have hne' : eid ≠ (applyEntityPosUpdates now eid p1 n s).player.player_id := by
      rw [ihp]; exact hne
    obtain ⟨hd, hp⟩ :=
      entity_pos_step now (applyEntityPosUpdates now eid p1 n s) eid _ p1 ihe hne'
    have hx : (p1.x - (0.8 : ℚ) ^ n * (p1.x - e.position.x))
          + (p1.x - (p1.x - (0.8 : ℚ) ^ n * (p1.x - e.position.x))) * (0.2 : ℚ)
        = p1.x - (0.8 : ℚ) ^ (n + 1) * (p1.x - e.position.x) := by ring
    have hy : (p1.y - (0.8 : ℚ) ^ n * (p1.y - e.position.y))
          + (p1.y - (p1.y - (0.8 : ℚ) ^ n * (p1.y - e.position.y))) * (0.2 : ℚ)
        = p1.y - (0.8 : ℚ) ^ (n + 1) * (p1.y - e.position.y) := by ring
    have hz : (p1.z - (0.8 : ℚ) ^ n * (p1.z - e.position.z))
          + (p1.z - (p1.z - (0.8 : ℚ) ^ n * (p1.z - e.position.z))) * (0.2 : ℚ)
        = p1.z - (0.8 : ℚ) ^ (n + 1) * (p1.z - e.position.z) := by ring
    constructor
    · show (apply_server_update now (applyEntityPosUpdates now eid p1 n s)
        (entityPosUpdate eid p1)).player = s.player
      rw [hp, ihp]
    · show dictGet eid (apply_server_update now (applyEntityPosUpdates now eid p1 n s)
        (entityPosUpdate eid p1)).entities = _
      rw [hd]
      show some ({ e with position :=
        ⟨(p1.x - (0.8 : ℚ) ^ n * (p1.x - e.position.x))
            + (p1.x - (p1.x - (0.8 : ℚ) ^ n * (p1.x - e.position.x))) * (0.2 : ℚ),
         (p1.y - (0.8 : ℚ) ^ n * (p1.y - e.position.y))
            + (p1.y - (p1.y - (0.8 : ℚ) ^ n * (p1.y - e.position.y))) * (0.2 : ℚ),
         (p1.z - (0.8 : ℚ) ^ n * (p1.z - e.position.z))
            + (p1.z - (p1.z - (0.8 : ℚ) ^ n * (p1.z - e.position.z))) * (0.2 : ℚ)⟩ }
        : EntityState) = _
      rw [hx, hy, hz]

theorem interp_between (a b t : ℚ) (h0 : 0 ≤ t) (h1 : t ≤ 1) :
    min a b ≤ b - t * (b - a) ∧ b - t * (b - a) ≤ max a b := by
  rcases le_total a b with hab | hab
  · rw [min_eq_left hab, max_eq_right hab]
    constructor <;> nlinarith
  · rw [min_eq_right hab, max_eq_left hab]
    constructor <;> nlinarith

/-- Claim C3 (status: confirmed, over the exact-rational model of the float
arithmetic).  A known non-player entity at position `p0` receiving an update
reporting `p1` moves each coordinate to `p0[i] + (p1[i] - p0[i])*0.2`; after
`n` repeated applications of the same reported position it sits at
`p1 - 0.8^n*(p1 - p0)` componentwise, with distance to `p1` equal to
`0.8^n` times the initial distance (geometric convergence) and never
overshooting the interval between `p0` and `p1`. -/
theorem c3_interpolation_law (now : ℚ) (s : GameState) (eid : Int) (e : EntityState)
    (p1 : V3) (he : dictGet eid s.entities = some e) (hne : eid ≠ s.player.player_id) :
    ((dictGet eid (apply_server_update now s (entityPosUpdate eid p1)).entities).map
        EntityState.position =
      some ⟨e.position.x + (p1.x - e.position.x) * (0.2 : ℚ),
            e.position.y + (p1.y - e.position.y) * (0.2 : ℚ),
            e.position.z + (p1.z - e.position.z) * (0.2 : ℚ)⟩)
    ∧ (∀ n : Nat,
        (dictGet eid (applyEntityPosUpdates now eid p1 n s).entities).map
            EntityState.position =
          some ⟨p1.x - (0.8 : ℚ) ^ n * (p1.x - e.position.x),
                p1.y - (0.8 : ℚ) ^ n * (p1.y - e.position.y),
                p1.z - (0.8 : ℚ) ^ n * (p1.z - e.position.z)⟩)
    ∧ (∀ n : Nat, ∃ q : V3,
        (dictGet eid (applyEntityPosUpdates now eid p1 n s).entities).map
            EntityState.position = some q
        ∧ |p1.x - q.x| = (0.8 : ℚ) ^ n * |p1.x - e.position.x|
        ∧ |p1.y - q.y| = (0.8 : ℚ) ^ n * |p1.y - e.position.y|
        ∧ |p1.z - q.z| = (0.8 : ℚ) ^ n * |p1.z - e.position.z|
        ∧ min e.position.x p1.x ≤ q.x ∧ q.x ≤ max e.position.x p1.x
        ∧ min e.position.y p1.y ≤ q.y ∧ q.y ≤ max e.position.y p1.y
        ∧ min e.position.z p1.z ≤ q.z ∧ q.z ≤ max e.position.z p1.z) := by
  have h08 : (0 : ℚ) ≤ 0.8 := by norm_num
  have h081 : (0.8 : ℚ) ≤ 1 := by norm_num
  refine ⟨?_, ?_, ?_⟩
  · obtain ⟨hd, -⟩ := entity_pos_step now s eid e p1 he hne
    rw [hd]
    rfl
  · intro n
    obtain ⟨-, hd⟩ := c3_aux now s eid e p1 he hne n
    rw [hd]
    rfl
  · intro n
    obtain ⟨-, hd⟩ := c3_aux now s eid e p1 he hne n
    refine ⟨_, by rw [hd]; rfl, ?_, ?_, ?_, ?_, ?_, ?_, ?_, ?_, ?_⟩
    · have harr : p1.x - (p1.x - (0.8 : ℚ) ^ n * (p1.x - e.position.x)) =
          (0.8 : ℚ) ^ n * (p1.x - e.position.x) := by ring
      rw [harr, abs_mul, abs_of_nonneg (pow_nonneg h08 n)]
    · have harr : p1.y - (p1.y - (0.8 : ℚ) ^ n * (p1.y - e.position.y)) =
          (0.8 : ℚ) ^ n * (p1.y - e.position.y) := by ring
      rw [harr, abs_mul, abs_of_nonneg (pow_nonneg h08 n)]
    · have harr : p1.z - (p1.z - (0.8 : ℚ) ^ n * (p1.z - e.position.z)) =
          (0.8 : ℚ) ^ n * (p1.z - e.position.z) := by ring
      rw [harr, abs_mul, abs_of_nonneg (pow_nonneg h08 n)]
    · exact (interp_between e.position.x p1.x _ (pow_nonneg h08 n)
        (pow_le_one₀ h08 h081)).1
    · exact (interp_between e.position.x p1.x _ (pow_nonneg h08 n)
        (pow_le_one₀ h08 h081)).2
    · exact (interp_between e.position.y p1.y _ (pow_nonneg h08 n)
        (pow_le_one₀ h08 h081)).1
    · exact (interp_between e.position.y p1.y _ (pow_nonneg h08 n)
        (pow_le_one₀ h08 h081)).2
    · exact (interp_between e.position.z p1.z _ (pow_nonneg h08 n)
        (pow_le_one₀ h08 h081)).1
    · exact (interp_between e.position.z p1.z _ (pow_nonneg h08 n)
        (pow_le_one₀ h08 h081)).2

/-- Witness for C3, the spec's end-to-end scenario: entity 5 starting at
`[0,0,0]`, twice reported at `[10,0,10]`, sits at `[2,0,2]` after one apply
and at `[3.6,0,3.6] = [18/5,0,18/5]` after two. -/
theorem c3_interpolation_witness :
    ((dictGet 5 (applyEntityPosUpdates 0 5 ⟨10, 0, 10⟩ 1 c3State).entities).map
        EntityState.position = some ⟨2, 0, 2⟩)
    ∧ ((dictGet 5 (applyEntityPosUpdates 0 5 ⟨10, 0, 10⟩ 2 c3State).entities).map
        EntityState.position = some ⟨18/5, 0, 18/5⟩) := by
  obtain ⟨-, hall, -⟩ :=
    c3_interpolation_law 0 c3State 5 npcFixture ⟨10, 0, 10⟩ rfl (by decide)
  constructor
  · rw [hall 1]
    norm_num [npcFixture]
  · rw [hall 2]
    norm_num [npcFixture]

/-! ## C5: the player's identifier and the entity map -/

theorem entity_update_step_no_player (pid : Int) (st : GameState) (ei : EntityInfo)
    (h1 : st.player.player_id = pid) (h2 : dictGet pid st.entities = none) :
    (entity_update_step st ei).player.player_id = pid ∧
      dictGet pid (entity_update_step st ei).entities = none := by
  by_cases hid : ei.id = st.player.player_id
  · rw [entity_update_step_eq_player st ei hid]
    exact ⟨(update_player_player_id ei st).trans h1,
      by rw [update_player_entities]; exact h2⟩
  · have hne : pid ≠ ei.id := fun e => hid (e.symm.trans h1.symm)
    by_cases hk : (dictGet ei.id st.entities).isSome = true
    · rw [entity_update_step_eq_update st ei hid hk]
      constructor
      · rw [update_entity_player]; exact h1
      · unfold update_entity_from_data
        split
        · exact h2
        · show dictGet pid (dictModify ei.id (applyEntityFieldUpdates ei) st.entities) = none
          rw [dictGet_modify_ne _ _ hne]
          exact h2
    · rw [entity_update_step_eq_create st ei hid hk]
      constructor
      · rw [create_entity_player]; exact h1
      · rw [create_entity_entities, dictGet_set_ne _ _ hne]
        exact h2

theorem world_chunk_entity_step_no_player (pid : Int) (st : GameState) (ei : EntityInfo)
    (hei : ei.id ≠ pid) (h1 : st.player.player_id = pid)
    (h2 : dictGet pid st.entities = none) :
    (world_chunk_entity_step st ei).player.player_id = pid ∧
      dictGet pid (world_chunk_entity_step st ei).entities = none := by
  have hne : pid ≠ ei.id := fun e => hei e.symm
  unfold world_chunk_entity_step
  by_cases hk : (dictGet ei.id st.entities).isSome = true
  · rw [if_pos hk]
    constructor
    · rw [update_entity_player]; exact h1
    · unfold update_entity_from_data
      split
      · exact h2
      · show dictGet pid (dictModify ei.id (applyEntityFieldUpdates ei) st.entities) = none
        rw [dictGet_modify_ne _ _ hne]
        exact h2
  · rw [if_neg hk]
    constructor
    · rw [create_entity_player]; exact h1
    · rw [create_entity_entities, dictGet_set_ne _ _ hne]
      exact h2

theorem apply_preserves_no_player (now : ℚ) (st : GameState) (u : ServerUpdate) (pid : Int)
    (hm : mentionsPlayerWC pid u = false)
    (h1 : st.player.player_id = pid) (h2 : dictGet pid st.entities = none) :
    (apply_server_update now st u).player.player_id = pid ∧
      dictGet pid (apply_server_update now st u).entities = none := by
  cases u with
  | world_chunk cx cz t ents =>
    simp only [mentionsPlayerWC, List.any_eq_false, beq_iff_eq] at hm
    simp only [apply_server_update, handle_world_chunk]
    refine foldl_invariant_mem
      (fun x => x.player.player_id = pid ∧ dictGet pid x.entities = none)
      world_chunk_entity_step (ents.getD [])
      (fun x ei hmem hx =>
        world_chunk_entity_step_no_player pid x ei (hm ei hmem) hx.1 hx.2) _ ?_
    constructor
    · split <;> exact h1
    · split <;> exact h2
  | entity_update ents rem =>
    simp only [apply_server_update, handle_entity_update]
    exact foldl_invariant_mem
      (fun x => x.player.player_id = pid ∧ dictGet pid x.entities = none)
      entity_update_step (ents.getD [])
      (fun x ei _ hx => entity_update_step_no_player pid x ei hx.1 hx.2) _ ⟨h1, h2⟩
  | player_update a b c d =>
    simp only [apply_server_update]
    exact ⟨(handle_player_update_player_id a b c d st).trans h1,
      by rw [handle_player_update_entities]; exact h2⟩
  | chat a b c => exact ⟨h1, h2⟩
  | collision a b c => exact ⟨h1, h2⟩
  | npc_interaction a b => exact ⟨h1, h2⟩

/-- Counterexample for C5 as stated: one world-chunk record whose entity list
carries the player's reserved identifier 0, applied to the fresh state, puts
identifier 0 into the generic entity map. -/
theorem c5_world_chunk_adds_player_counterexample :
    ((applyUpdates [(0, .world_chunk 0 0 none (some [{ id := 0 }]))]
        initGameState).player.player_id = 0)
    ∧ ((dictGet 0 (applyUpdates [(0, .world_chunk 0 0 none (some [{ id := 0 }]))]
        initGameState).entities).isSome = true) := by
  constructor
  · rfl
  · rfl

/-- Claim C5 (status: corrected).  Amended: the invariant holds for every
sequence of inbound records in which no world-chunk record's entity list
carries the player's reserved identifier — entity-update records route the
player's identifier to the player slot and can never add it to the entity
map, but `handle_world_chunk` has no such check, so a world-chunk record
listing the player's identifier does add it. -/
theorem c5_player_never_in_entities (us : List (ℚ × ServerUpdate))
    (hwc : ∀ tu ∈ us, mentionsPlayerWC initGameState.player.player_id tu.2 = false) :
    dictGet ((applyUpdates us initGameState).player.player_id)
      (applyUpdates us initGameState).entities = none := by
  have h0 : initGameState.player.player_id = 0 := rfl
  have main := foldl_invariant_mem
    (fun st => st.player.player_id = 0 ∧ dictGet 0 st.entities = none)
    (fun s' tu => apply_server_update tu.1 s' tu.2) us
    (fun s' tu hmem hx =>
      apply_preserves_no_player tu.1 s' tu.2 0 (h0 ▸ hwc tu hmem) hx.1 hx.2)
    initGameState ⟨rfl, rfl⟩
  obtain ⟨hpid, hnone⟩ := main
  show dictGet ((us.foldl (fun s' tu => apply_server_update tu.1 s' tu.2)
      initGameState).player.player_id)
    (us.foldl (fun s' tu => apply_server_update tu.1 s' tu.2) initGameState).entities = none
  rw [hpid]
  exact hnone

/-- Witness for C5 (amended) on a concrete mixed sequence: a chat record, an
entity-update creating entity 7 and a world-chunk creating entity 9 leave the
player's identifier outside the entity map. -/
theorem c5_player_never_in_entities_witness :
    dictGet ((applyUpdates c5WitnessUpdates initGameState).player.player_id)
      (applyUpdates c5WitnessUpdates initGameState).entities = none :=
  c5_player_never_in_entities c5WitnessUpdates (by decide)

/-! ## C6: idempotence of entity creation -/

/-- Claim C6 (status: confirmed).  Applying the same entity-update record for
a previously unseen non-player identifier twice leaves exactly one entry with
that identifier in the entity map: the first application appends it, the
second mutates it in place. -/
theorem c6_entity_creation_idempotent (now now' : ℚ) (s : GameState) (ei : EntityInfo)
    (rem rem' : Option (List Int))
    (hnew : dictGet ei.id s.entities = none) (hnp : ¬ ei.id = s.player.player_id) :
    keyCount ei.id
      ((apply_server_update now'
          (apply_server_update now s (.entity_update (some [ei]) rem))
          (.entity_update (some [ei]) rem')).entities) = 1 := by
  have h1 : apply_server_update now s (.entity_update (some [ei]) rem)
      = create_entity_from_data ei s := by
    show entity_update_step s ei = _
    exact entity_update_step_eq_create s ei hnp (by rw [hnew]; simp)
  rw [h1]
  have hget : dictGet ei.id (create_entity_from_data ei s).entities
      = some (mkEntityFromData ei) := by
    rw [create_entity_entities]
    exact dictGet_set_self ei.id (mkEntityFromData ei) s.entities
  have h2 : apply_server_update now' (create_entity_from_data ei s)
        (.entity_update (some [ei]) rem')
      = update_entity_from_data ei.id ei (create_entity_from_data ei s) := by
    show entity_update_step (create_entity_from_data ei s) ei = _
    refine entity_update_step_eq_update _ ei ?_ (by rw [hget]; rfl)
    rw [create_entity_player]
    exact hnp
  rw [h2]
  unfold update_entity_from_data
  rw [hget]
  show keyCount ei.id
      (dictModify ei.id (applyEntityFieldUpdates ei)
        (create_entity_from_data ei s).entities) = 1
  rw [keyCount_modify, create_entity_entities]
  exact keyCount_set_of_none _ hnew

/-- Witness for C6: the record creating entity 5 applied twice to the fresh
state retains exactly one entry keyed 5. -/
theorem c6_entity_creation_idempotent_witness :
    keyCount 5
      ((apply_server_update 0
          (apply_server_update 0 initGameState (.entity_update (some [{ id := 5 }]) none))
          (.entity_update (some [{ id := 5 }]) none)).entities) = 1 :=
  c6_entity_creation_idempotent 0 0 initGameState { id := 5 } none none rfl (by decide)

/-! ## C7: the chat bound -/

theorem handle_chat_messages_eq (c : ChatRec) (s : GameState) :
    (apply_server_update c.now s (.chat c.sender c.message c.channel)).chat_messages =
      (if (s.chat_messages ++ [chatEntryOf c]).length > 1000
       then (s.chat_messages ++ [chatEntryOf c]).drop
           ((s.chat_messages ++ [chatEntryOf c]).length - 1000)
       else s.chat_messages ++ [chatEntryOf c]) := rfl

theorem trim_last1000 (m : List ChatEntry) (a : ChatEntry) :
    (if (m.drop (m.length - 1000) ++ [a]).length > 1000
     then (m.drop (m.length - 1000) ++ [a]).drop
         ((m.drop (m.length - 1000) ++ [a]).length - 1000)
     else m.drop (m.length - 1000) ++ [a])
    = (m ++ [a]).drop ((m ++ [a]).length - 1000) := by
  have hlen : (m.drop (m.length - 1000)).length = m.length - (m.length - 1000) := by
    simp
  by_cases h : m.length < 1000
  · have h0 : m.length - 1000 = 0 := by omega
    rw [h0, List.drop_zero]
    rw [if_neg (by simp only [List.length_append, List.length_cons, List.length_nil]; omega)]
    have h1 : (m ++ [a]).length - 1000 = 0 := by
      simp only [List.length_append, List.length_cons, List.length_nil]
      omega
    rw [h1, List.drop_zero]
  · push_neg at h
    have hgt : (m.drop (m.length - 1000) ++ [a]).length > 1000 := by
      simp only [List.length_append, hlen, List.length_cons, List.length_nil]
      omega
    rw [if_pos hgt]
    have hd1 : (m.drop (m.length - 1000) ++ [a]).length - 1000 = 1 := by
      simp only [List.length_append, hlen, List.length_cons, List.length_nil]
      omega
    rw [hd1]
    rw [List.drop_append_eq_append_drop, hlen]
    rw [show 1 - (m.length - (m.length - 1000)) = 0 by omega, List.drop_zero]
    rw [List.drop_drop]
    rw [List.drop_append_eq_append_drop]
    rw [show (m ++ [a]).length - 1000 - m.length = 0 by
      simp only [List.length_append, List.length_cons, List.length_nil]; omega, List.drop_zero]
    have harith : m.length - 1000 + 1 = (m ++ [a]).length - 1000 := by
      simp only [List.length_append, List.length_cons, List.length_nil]
      omega
    rw [harith]

theorem applyChatRecords_chat (cs : List ChatRec) :
    (applyChatRecords cs initGameState).chat_messages =
      (cs.map chatEntryOf).drop ((cs.map chatEntryOf).length - 1000) := by
  induction cs using List.reverseRecOn with
  | nil => rfl
  | append_singleton cs c ih =>
    have happ : applyChatRecords (cs ++ [c]) initGameState =
        apply_server_update c.now (applyChatRecords cs initGameState)
          (.chat c.sender c.message c.channel) := by
      simp [applyChatRecords, List.foldl_append]
    rw [happ, handle_chat_messages_eq, ih]
    simp only [List.map_append, List.map_cons, List.map_nil]
    exact trim_last1000 (cs.map chatEntryOf) (chatEntryOf c)

/-- Claim C7 (status: confirmed).  Any sequence of chat records applied to
the fresh state retains the arrival-order suffix of at most 1000 entries
(oldest dropped first); in particular after 1001 records exactly 1000 are
retained and the first one received is the one dropped. -/
theorem c7_chat_bound (cs : List ChatRec) :
    ((applyChatRecords cs initGameState).chat_messages =
        (cs.map chatEntryOf).drop (cs.length - 1000))
    ∧ ((applyChatRecords cs initGameState).chat_messages.length ≤ 1000)
    ∧ (cs.length = 1001 →
        (applyChatRecords cs initGameState).chat_messages = (cs.map chatEntryOf).tail
        ∧ (applyChatRecords cs initGameState).chat_messages.length = 1000) := by
  have hmain := applyChatRecords_chat cs
  have hlenmap : (cs.map chatEntryOf).length = cs.length := by simp
  refine ⟨by rw [hmain, hlenmap], ?_, ?_⟩
  · rw [hmain, List.length_drop]
    omega
  · intro h1001
    constructor
    · rw [hmain, hlenmap, h1001]
      rw [show (1001 - 1000 : Nat) = 1 from rfl, List.drop_one]
    · rw [hmain, List.length_drop, hlenmap, h1001]

set_option maxRecDepth 4000 in
/-- Witness for C7: 1001 default chat records leave exactly 1000 retained
messages. -/
theorem c7_chat_bound_witness :
    (applyChatRecords (List.replicate 1001 { now := 0 }) initGameState).chat_messages.length
      = 1000 :=
  ((c7_chat_bound (List.replicate 1001 { now := 0 })).2.2
    (List.length_replicate 1001 { now := 0 })).2

/-! ## C8: chunk eviction -/

/-- Claim C8 (status: confirmed).  One eviction pass at reference time `now`
retains exactly the chunk entries with `now - last_accessed ≤ 60` and removes
exactly those with `now - last_accessed > 60`. -/
theorem c8_chunk_eviction (s : GameState) (now : ℚ) (k : String) (c : WorldChunk) :
    (k, c) ∈ (cleanup_chunks now s).chunks ↔
      (k, c) ∈ s.chunks ∧ ¬ (now - c.last_accessed > 60) := by
  simp [cleanup_chunks, List.mem_filter]

/-! ## C9: the snapshot pair -/

/-- Claim C9 (status: code_bug).  Loading the snapshot saved from a state
with at least one chunk always fails: `load_state` rebuilds each chunk with
`WorldChunk(**cdata)` from metadata that lacks the required `terrain_data`
and `entities` fields, so the first chunk raises `TypeError`, the exception
handler returns `False`, and the chunk map is left empty (player and
entities having already been overwritten).  Only a chunk-free state
round-trips. -/
theorem c9_snapshot_roundtrip (s : GameState) :
    (s.chunks = [] → load_state (save_state s) s = (true, s))
    ∧ (s.chunks ≠ [] → load_state (save_state s) s = (false, { s with chunks := [] })) := by
  constructor
  · intro h
    have hok : loadChunksOfMeta (save_state s).chunks = .ok [] := by
      show loadChunksOfMeta (s.chunks.map
        (fun kc => (kc.1, ⟨kc.2.chunk_x, kc.2.chunk_z, kc.2.loaded⟩))) = .ok []
      rw [h]
      rfl
    unfold load_state
    rw [hok]
    show (true, { s with chunks := ([] : List (String × WorldChunk)) }) = (true, s)
    rw [← h]
  · intro h
    cases hc : s.chunks with
    | nil => exact absurd hc h
    | cons kc rest =>
      have herr : loadChunksOfMeta (save_state s).chunks = .error .typeError := by
        show loadChunksOfMeta (s.chunks.map
          (fun kc => (kc.1, ⟨kc.2.chunk_x, kc.2.chunk_z, kc.2.loaded⟩))) = .error .typeError
        rw [hc]
        rfl
      unfold load_state
      rw [herr]
      rfl

/-- Witness for C9 at the failing input: a state holding one loaded chunk
whose saved snapshot fails to load (the call reports `False`). -/
theorem c9_snapshot_roundtrip_witness :
    (load_state (save_state c9ChunkState) c9ChunkState).1 = false := by
  have h := (c9_snapshot_roundtrip c9ChunkState).2 (by simp [c9ChunkState])
  rw [h]
